import Mathlib

/-!
Verification development for the KnobKraft-orm core subsystems described in
the specification: the Rev2 NRPN message assembler, the device auto-detection
engine, and the content-addressed patch database.

The repository sources under version control here contain the class
declarations (Rev2Message.h, MainComponent.h); the member-function bodies and
the PatchDatabase / AutoDetection implementations live outside the provided
tree, so those operations are modelled from the specification, as noted on
each definition.
-/

namespace midikraft

/-! ## Rev2 NRPN message assembler -/

/-- The four constituent roles of one NRPN-style parameter change: the high
and low halves of the controller number and the high and low halves of the
value (spec section 4.3). -/
inductive Role where
  | ctrlHigh
  | ctrlLow
  | valHigh
  | valLow
deriving DecidableEq

/-- Modelled from the spec: one inbound raw message of the parameter-change
protocol, classified by which half of which quantity it carries, together
with the 7-bit half value it transports. -/
structure NrpnHalf where
  role : Role
  value : Nat
deriving DecidableEq

/-- The accumulator fields of the Rev2Message class
(src/synths/sequential-rev2/Rev2Message.h lines 21-24); a field is `none`
while its role has not yet been observed in the current assembly. -/
structure Rev2Message where
  nrpn_number_msb_ : Option Nat
  nrpn_number_lsb_ : Option Nat
  nrpn_value_msb_ : Option Nat
  nrpn_value_lsb_ : Option Nat
deriving DecidableEq

/-- The empty accumulator: no role observed yet. -/
def Rev2Message.empty : Rev2Message := ⟨none, none, none, none⟩

/-- Combine a high and a low 7-bit half into one number. -/
def combine (msb lsb : Nat) : Nat := msb * 128 + lsb

/-- Accessor declared `const` in Rev2Message.h line 15: the assembled NRPN
controller number, combined from the two stored controller halves. -/
def Rev2Message.nrpnController (m : Rev2Message) : Nat :=
  combine (m.nrpn_number_msb_.getD 0) (m.nrpn_number_lsb_.getD 0)

/-- Accessor declared `const` in Rev2Message.h line 16: the assembled NRPN
value, combined from the two stored value halves. -/
def Rev2Message.nrpnValue (m : Rev2Message) : Nat :=
  combine (m.nrpn_value_msb_.getD 0) (m.nrpn_value_lsb_.getD 0)

/-- Accessor declared `const` in Rev2Message.h line 18: a display name for
the assembled parameter change. -/
def Rev2Message.getName (m : Rev2Message) : String :=
  "NRPN " ++ toString m.nrpnController

/-- Store one half value into its accumulator field (latest-wins). -/
def applyRole (m : Rev2Message) (r : Role) (v : Nat) : Rev2Message :=
  match r with
  | .ctrlHigh => ⟨some v, m.nrpn_number_lsb_, m.nrpn_value_msb_, m.nrpn_value_lsb_⟩
  | .ctrlLow => ⟨m.nrpn_number_msb_, some v, m.nrpn_value_msb_, m.nrpn_value_lsb_⟩
  | .valHigh => ⟨m.nrpn_number_msb_, m.nrpn_number_lsb_, some v, m.nrpn_value_lsb_⟩
  | .valLow => ⟨m.nrpn_number_msb_, m.nrpn_number_lsb_, m.nrpn_value_msb_, some v⟩

/-- Whether the accumulator already holds a value for the given role. -/
def roleFilled (m : Rev2Message) (r : Role) : Bool :=
  match r with
  | .ctrlHigh => m.nrpn_number_msb_.isSome
  | .ctrlLow => m.nrpn_number_lsb_.isSome
  | .valHigh => m.nrpn_value_msb_.isSome
  | .valLow => m.nrpn_value_lsb_.isSome

/-- The logical precedence position of a role within one parameter change:
controller halves precede value halves, high halves precede low halves. -/
def roleIdx : Role → Nat
  | .ctrlHigh => 0
  | .ctrlLow => 1
  | .valHigh => 2
  | .valLow => 3

/-- All four roles, in logical order. -/
def allRoles : List Role := [.ctrlHigh, .ctrlLow, .valHigh, .valLow]

/-- Modelled from the spec: a recurrence of role `r` is reset-triggering when
`r` is already filled and some role that logically follows `r` has already
been collected — the recurring role "logically must precede a role already
collected" (spec section 4.3, Reset). -/
def resetTriggering (m : Rev2Message) (r : Role) : Bool :=
  roleFilled m r && allRoles.any (fun s => decide (roleIdx r < roleIdx s) && roleFilled m s)

/-- Whether every role has been filled at least once. -/
def allFilled (m : Rev2Message) : Bool :=
  m.nrpn_number_msb_.isSome && m.nrpn_number_lsb_.isSome &&
    m.nrpn_value_msb_.isSome && m.nrpn_value_lsb_.isSome

/-- One fully-assembled atomic parameter change (spec section 3). -/
structure ParameterEvent where
  controller : Nat
  value : Nat
deriving DecidableEq

/-- The assembler state machine of spec section 4.3: `idle` (no partial
assembly in progress) or `accumulating` with the partial bytes collected
so far. -/
inductive AsmState where
  | idle
  | accumulating (m : Rev2Message)
deriving DecidableEq

/-- Modelled from the spec: the body of `Rev2Message::addMessage`
(declared at src/synths/sequential-rev2/Rev2Message.h line 13; the
implementation file is not part of the provided tree). From `idle` any role
starts accumulating; from `accumulating`, a reset-triggering recurrence
discards the stale partial bytes and returns to `idle` silently, otherwise
the half is stored (latest-wins) and, once all four roles are filled, one
ParameterEvent is emitted and the state returns to `idle`. -/
def addMessage (s : AsmState) (h : NrpnHalf) : AsmState × Option ParameterEvent :=
  match s with
  | .idle => (.accumulating (applyRole Rev2Message.empty h.role h.value), none)
  | .accumulating m =>
    if resetTriggering m h.role then (.idle, none)
    else
      let m' := applyRole m h.role h.value
      if allFilled m' then (.idle, some ⟨m'.nrpnController, m'.nrpnValue⟩)
      else (.accumulating m', none)

/-- Run the assembler over a list of inbound halves, collecting every emitted
ParameterEvent in order. -/
def runAsm (s : AsmState) : List NrpnHalf → AsmState × List ParameterEvent
  | [] => (s, [])
  | h :: t =>
    let p := addMessage s h
    let q := runAsm p.1 t
    (q.1, p.2.toList ++ q.2)

/-- Concrete sample half values used to exercise the assembler. -/
def sampleHalf : Role → Nat
  | .ctrlHigh => 1
  | .ctrlLow => 2
  | .valHigh => 3
  | .valLow => 4

/-- The three observers declared `const` on Rev2Message
(Rev2Message.h lines 15-18). -/
inductive AccessorCall where
  | controller
  | value
  | name

/-- Calling one const accessor: it returns its observation and, being
declared `const` over non-mutable fields (Rev2Message.h lines 15-24), leaves
the object state unchanged. -/
def callAccessor (m : Rev2Message) : AccessorCall → Rev2Message × (Nat ⊕ String)
  | .controller => (m, Sum.inl m.nrpnController)
  | .value => (m, Sum.inl m.nrpnValue)
  | .name => (m, Sum.inr m.getName)

/-- Thread a sequence of accessor calls through the object, collecting the
observed results. -/
def runAccessors (m : Rev2Message) : List AccessorCall → Rev2Message × List (Nat ⊕ String)
  | [] => (m, [])
  | c :: cs =>
    let p := callAccessor m c
    let q := runAccessors p.1 cs
    (q.1, p.2 :: q.2)

/-! ## Auto-detection engine

The AutoDetection implementation is not part of the provided tree (only its
declaration is included from MainComponent.h), so the engine and the device
descriptor signature are modelled from spec sections 4.1 and 4.2. -/

/-- Modelled from the spec: the per-model device descriptor data that fixes
the identity-response signature (spec section 4.1; the concrete descriptor
classes such as Rev2.h are not in the provided tree). -/
structure DeviceDescriptor where
  modelTag : String
  manufacturerId : Nat
  familyCode : Nat
deriving DecidableEq

/-- A successfully detected, addressed device (spec section 3). -/
structure DeviceIdentity where
  modelTag : String
  channel : Nat
  displayName : String
deriving DecidableEq

/-- Modelled from the spec: whether a raw inbound byte sequence exactly
satisfies this descriptor's identity-response signature — a universal
identity-reply frame of exactly eight bytes carrying this model's
manufacturer and family codes on a valid channel. -/
def respMatches (d : DeviceDescriptor) (msg : List Nat) : Bool :=
  msg.length == 8 && msg.getD 0 0 == 240 && msg.getD 1 0 == 126 &&
    decide (msg.getD 2 0 < 16) && msg.getD 3 0 == 6 && msg.getD 4 0 == 2 &&
    msg.getD 5 0 == d.manufacturerId && msg.getD 6 0 == d.familyCode &&
    msg.getD 7 0 == 247

/-- Modelled from the spec: `matchIdentityResponse` returns a populated
DeviceIdentity, carrying the channel the response was observed on, exactly
when the message matches this model's signature; every other byte sequence
yields no match (spec section 4.1). -/
def matchIdentityResponse (d : DeviceDescriptor) (msg : List Nat) : Option DeviceIdentity :=
  if respMatches d msg then some ⟨d.modelTag, msg.getD 2 0, d.modelTag⟩ else none

/-- Modelled from the spec: one detection run (spec section 4.2). Every
inbound message collected within the window is offered to each descriptor in
turn (first match wins); duplicate responses from the same (model, channel)
are coalesced, and distinct identities each get their own registry entry. -/
def detect (descs : List DeviceDescriptor) (msgs : List (List Nat)) : List DeviceIdentity :=
  msgs.foldl
    (fun reg msg =>
      match descs.findSome? (fun d => matchIdentityResponse d msg) with
      | none => reg
      | some ident => if reg.contains ident then reg else reg ++ [ident])
    []

/-! ## Patch database

The PatchDatabase implementation is not part of the provided tree (only its
declaration is included from MainComponent.h), so its operations are
modelled from spec sections 3 and 4.4. -/

/-- Modelled from the spec: the deterministic, content-only fingerprint over
the normalized patch bytes (spec section 4.4; a simple rolling hash stands
in for the source's hash function, which is outside the provided tree). -/
def fingerprint (bytes : List Nat) : Nat :=
  bytes.foldl (fun h b => (h * 131 + b) % 2 ^ 64) 5381

/-- Source metadata of an imported patch (spec section 3). -/
structure SourceMeta where
  origin : String
  displayName : String
  timestamp : Nat
deriving DecidableEq

/-- One stored patch record (spec section 3). -/
structure PatchRecord where
  synthTag : String
  fingerprint : Nat
  displayName : String
  bytes : List Nat
  categories : List Nat
  favorite : Bool
  source : SourceMeta
deriving DecidableEq

/-- Whether a record carries the given (synth model tag, fingerprint) key. -/
def keyMatches (tag : String) (fp : Nat) (r : PatchRecord) : Bool :=
  r.synthTag == tag && r.fingerprint == fp

/-- Look up the unique record stored under a (synth model tag, fingerprint)
key, if any. -/
def lookupPatch (db : List PatchRecord) (tag : String) (fp : Nat) : Option PatchRecord :=
  db.find? (keyMatches tag fp)

/-- The fresh record persisted for a new import. -/
def mkRecord (tag : String) (bytes : List Nat) (meta : SourceMeta) : PatchRecord :=
  ⟨tag, fingerprint bytes, meta.displayName, bytes, [], false, meta⟩

/-- Modelled from the spec: `importPatch` computes the fingerprint and either
returns the existing record unchanged (`inserted = false`) when the
(synthTag, fingerprint) key already exists, or creates and persists a new
record (`inserted = true`) (spec section 4.4). -/
def importPatch (db : List PatchRecord) (tag : String) (bytes : List Nat)
    (meta : SourceMeta) : PatchRecord × Bool × List PatchRecord :=
  match lookupPatch db tag (fingerprint bytes) with
  | some r => (r, false, db)
  | none => (mkRecord tag bytes meta, true, db ++ [mkRecord tag bytes meta])

/-- Modelled from the spec: `deletePatch` removes the record stored under the
(fingerprint, synthTag) key if present (spec section 4.4). -/
def deletePatch (db : List PatchRecord) (fp : Nat) (tag : String) : List PatchRecord :=
  db.filter (fun r => !(keyMatches tag fp r))

/-- A query filter for `listPatches` (spec section 4.4). -/
structure PatchFilter where
  synthTag : Option String
  category : Option Nat
  textQuery : Option String
  favoriteOnly : Bool

/-- Modelled from the spec: whether a record satisfies every component of
the filter. -/
def matchesFilter (f : PatchFilter) (r : PatchRecord) : Bool :=
  (match f.synthTag with
    | none => true
    | some t => r.synthTag == t) &&
  (match f.category with
    | none => true
    | some c => r.categories.contains c) &&
  (match f.textQuery with
    | none => true
    | some q => q.isPrefixOf r.displayName) &&
  (!f.favoriteOnly || r.favorite)

/-- The stable result order of `listPatches`: by display name, ties broken
by fingerprint (spec section 4.4). -/
def recLE (a b : PatchRecord) : Prop :=
  a.displayName < b.displayName ∨
    (a.displayName = b.displayName ∧ a.fingerprint ≤ b.fingerprint)

instance : DecidableRel recLE := fun a b => by
  unfold recLE
  infer_instance

instance : IsTotal PatchRecord recLE where
  total a b := by
    rcases lt_trichotomy a.displayName b.displayName with h | h | h
    · exact Or.inl (Or.inl h)
    · rcases Nat.le_total a.fingerprint b.fingerprint with hf | hf
      · exact Or.inl (Or.inr ⟨h, hf⟩)
      · exact Or.inr (Or.inr ⟨h.symm, hf⟩)
    · exact Or.inr (Or.inl h)

instance : IsTrans PatchRecord recLE where
  trans a b c hab hbc := by
    rcases hab with hab | ⟨hab, hab'⟩
    · rcases hbc with hbc | ⟨hbc, _⟩
      · exact Or.inl (lt_trans hab hbc)
      · exact Or.inl (hbc ▸ hab)
    · rcases hbc with hbc | ⟨hbc, hbc'⟩
      · exact Or.inl (hab ▸ hbc)
      · exact Or.inr ⟨hab.trans hbc, le_trans hab' hbc'⟩

/-- Modelled from the spec: `listPatches` returns the matching records in the
stable, deterministic order given by `recLE` (spec section 4.4). -/
def listPatches (f : PatchFilter) (db : List PatchRecord) : List PatchRecord :=
  List.insertionSort recLE (db.filter (matchesFilter f))

end midikraft

/-! ## Theorems -/

namespace midikraft

theorem runAsm_append (l l' : List NrpnHalf) (s : AsmState) :
    runAsm s (l ++ l') =
      ((runAsm (runAsm s l).1 l').1, (runAsm s l).2 ++ (runAsm (runAsm s l).1 l').2) := by
  induction l generalizing s with
  | nil => simp [runAsm]
  | cons h t ih => simp [runAsm, ih]

theorem allFilled_applyRole (m : Rev2Message) (r : Role) (v : Nat)
    (hf : roleFilled m r = true) : allFilled (applyRole m r v) = allFilled m := by
  cases m
  cases r <;> simp [roleFilled] at hf <;> simp [applyRole, allFilled, hf]

/-- C2: a valid four-role parameter change delivered in any interleaving
(each role exactly once, hence every role is filled before any
reset-triggering recurrence) makes the assembler emit exactly one
ParameterEvent, with controller and value correctly combined from their
halves, and return to the idle state. -/
theorem c2_complete_assembly (perm : List Role)
    (hp : perm.Perm [Role.ctrlHigh, .ctrlLow, .valHigh, .valLow]) (a : Role → Nat) :
    runAsm .idle (perm.map (fun r => ⟨r, a r⟩)) =
      (.idle, [⟨combine (a .ctrlHigh) (a .ctrlLow), combine (a .valHigh) (a .valLow)⟩]) := by
  have hl : perm.length = 4 := hp.length_eq
  rcases perm with _ | ⟨r1, _ | ⟨r2, _ | ⟨r3, _ | ⟨r4, _ | ⟨r5, t⟩⟩⟩⟩⟩ <;> simp at hl
  cases r1 <;> cases r2 <;> cases r3 <;> cases r4 <;>
    first
      | rfl
      | exact absurd hp (by decide)

theorem c2_witness :
    runAsm .idle ([Role.valLow, .valHigh, .ctrlLow, .ctrlHigh].map (fun r => ⟨r, sampleHalf r⟩)) =
      (.idle, [⟨combine (sampleHalf .ctrlHigh) (sampleHalf .ctrlLow),
        combine (sampleHalf .valHigh) (sampleHalf .valLow)⟩]) :=
  c2_complete_assembly [Role.valLow, .valHigh, .ctrlLow, .ctrlHigh] (by decide) sampleHalf

/-- C5: a torn sequence — the partial assembly has emitted nothing yet and a
reset-triggering role recurrence arrives before all four roles are filled —
emits zero ParameterEvents, silently discards the stale partial bytes, and
ends in the idle state. -/
theorem c5_torn_assembly (l : List NrpnHalf) (h : NrpnHalf) (m : Rev2Message)
    (h1 : runAsm .idle l = (.accumulating m, []))
    (h2 : resetTriggering m h.role = true) :
    runAsm .idle (l ++ [h]) = (.idle, []) := by
  rw [runAsm_append, h1]
  simp [runAsm, addMessage, h2]

theorem c5_witness :
    runAsm .idle ([⟨.ctrlHigh, 1⟩, ⟨.ctrlLow, 2⟩] ++ [⟨.ctrlHigh, 3⟩]) = (.idle, []) :=
  c5_torn_assembly [⟨.ctrlHigh, 1⟩, ⟨.ctrlLow, 2⟩] ⟨.ctrlHigh, 3⟩
    ⟨some 1, some 2, none, none⟩ rfl rfl

/-- C7 as stated is false: in an accumulating state where the controller-high
and controller-low halves are both filled, a recurrence of the
controller-high half is reset-triggering, so the assembler discards the
partial bytes and returns to idle instead of overwriting the stored half. -/
theorem c7_counterexample :
    addMessage (.accumulating ⟨some 1, some 2, none, none⟩) ⟨.ctrlHigh, 5⟩ = (.idle, none) ∧
      (AsmState.idle ≠ .accumulating ⟨some 5, some 2, none, none⟩) := by
  constructor
  · rfl
  · decide

/-- C7 amended: a message whose role is already filled and whose recurrence
is not reset-triggering (no logically-later role is already collected), in a
still-partial accumulating state, overwrites the stored half latest-wins and
emits no ParameterEvent. -/
theorem c7_duplicate_role_overwrites (m : Rev2Message) (r : Role) (v : Nat)
    (hf : roleFilled m r = true) (hnr : resetTriggering m r = false)
    (hpart : allFilled m = false) :
    addMessage (.accumulating m) ⟨r, v⟩ = (.accumulating (applyRole m r v), none) := by
  have hall : allFilled (applyRole m r v) = allFilled m := allFilled_applyRole m r v hf
  simp [addMessage, hnr, hall, hpart]

theorem c7_witness :
    addMessage (.accumulating ⟨some 1, none, none, none⟩) ⟨.ctrlHigh, 7⟩ =
      (.accumulating ⟨some 7, none, none, none⟩, none) :=
  c7_duplicate_role_overwrites ⟨some 1, none, none, none⟩ .ctrlHigh 7 rfl rfl rfl

/-- C10: reading the assembled result does not change the assembler state:
any number of calls to the const accessors nrpnController, nrpnValue and
getName, in any order, leaves the four stored half-value fields of the
Rev2Message unchanged; only addMessage advances the assembly. -/
theorem c10_accessors_pure (m : Rev2Message) (calls : List AccessorCall) :
    (runAccessors m calls).1 = m := by
  induction calls with
  | nil => rfl
  | cons c cs ih => cases c <;> simpa [runAccessors, callAccessor] using ih

/-- C3: a byte sequence that does not exactly satisfy a descriptor's
identity-response signature yields no match, and any returned identity is
fully populated: this model's tag and the valid channel the response was
observed on. -/
theorem c3_no_match_on_malformed (d : DeviceDescriptor) (msg : List Nat) :
    (respMatches d msg = false → matchIdentityResponse d msg = none) ∧
      (∀ ident, matchIdentityResponse d msg = some ident →
        ident.modelTag = d.modelTag ∧ ident.channel < 16 ∧ ident.channel = msg.getD 2 0) := by
  constructor
  · intro h
    simp [matchIdentityResponse, h]
  · intro ident h
    unfold matchIdentityResponse at h
    by_cases hm : respMatches d msg
    · rw [if_pos hm] at h
      obtain rfl := Option.some.inj h
      refine ⟨rfl, ?_, rfl⟩
      unfold respMatches at hm
      simp only [Bool.and_eq_true, decide_eq_true_eq] at hm
      exact hm.1.1.1.1.1.2
    · rw [if_neg hm] at h
      cases h

theorem c3_witness :
    matchIdentityResponse ⟨"Rev2", 1, 47⟩ [1, 2, 3] = none :=
  (c3_no_match_on_malformed ⟨"Rev2", 1, 47⟩ [1, 2, 3]).1 (by decide)

/-- C6: each distinct (model, channel) pair that responds yields its own
independent DeviceIdentity entry — two responses matching the same
descriptor on distinct channels give two registry entries — and a detection
run with no responses yields an empty registry. -/
theorem c6_distinct_channels (d : DeviceDescriptor) (m1 m2 : List Nat)
    (id1 id2 : DeviceIdentity)
    (h1 : matchIdentityResponse d m1 = some id1)
    (h2 : matchIdentityResponse d m2 = some id2)
    (hch : id1.channel ≠ id2.channel) :
    detect [d] [m1, m2] = [id1, id2] ∧ detect [d] [] = [] := by
  have hne : id2 ≠ id1 := fun h => hch (congrArg DeviceIdentity.channel h.symm)
  constructor
  · simp [detect, List.findSome?, h1, h2, List.contains, List.elem, hne]
  · rfl

theorem c6_witness :
    detect [⟨"Rev2", 1, 47⟩] [[240, 126, 0, 6, 2, 1, 47, 247], [240, 126, 1, 6, 2, 1, 47, 247]] =
        [⟨"Rev2", 0, "Rev2"⟩, ⟨"Rev2", 1, "Rev2"⟩] ∧
      detect [⟨"Rev2", 1, 47⟩] [] = [] :=
  c6_distinct_channels ⟨"Rev2", 1, 47⟩ _ _ ⟨"Rev2", 0, "Rev2"⟩ ⟨"Rev2", 1, "Rev2"⟩
    (by decide) (by decide) (by decide)


theorem keyMatches_mkRecord (tag : String) (bytes : List Nat) (meta : SourceMeta) :
    keyMatches tag (fingerprint bytes) (mkRecord tag bytes meta) = true := by
  simp [keyMatches, mkRecord]

theorem lookupPatch_append_absent (db : List PatchRecord) (tag : String) (fp : Nat)
    (r : PatchRecord) (habs : lookupPatch db tag fp = none) :
    lookupPatch (db ++ [r]) tag fp = if keyMatches tag fp r then some r else none := by
  unfold lookupPatch at *
  rw [List.find?_append, habs]
  cases hk : keyMatches tag fp r <;> simp [List.find?, hk]

/-- C1: importing byte-identical patch bytes twice under the same synth model
tag (starting from a database not yet holding that key) inserts on the first
call, reports a duplicate on the second, leaves the database unchanged by
the second call with exactly one stored record for the (synthTag,
fingerprint) key, and returns the existing record with its bytes intact. -/
theorem c1_reimport_dedup (db : List PatchRecord) (tag : String) (bytes : List Nat)
    (m1 m2 : SourceMeta)
    (habs : lookupPatch db tag (fingerprint bytes) = none) :
    (importPatch db tag bytes m1).2.1 = true ∧
      (importPatch (importPatch db tag bytes m1).2.2 tag bytes m2).2.1 = false ∧
      (importPatch (importPatch db tag bytes m1).2.2 tag bytes m2).2.2 =
        (importPatch db tag bytes m1).2.2 ∧
      (importPatch (importPatch db tag bytes m1).2.2 tag bytes m2).1 =
        (importPatch db tag bytes m1).1 ∧
      (importPatch (importPatch db tag bytes m1).2.2 tag bytes m2).1.bytes = bytes ∧
      ((importPatch (importPatch db tag bytes m1).2.2 tag bytes m2).2.2.filter
        (keyMatches tag (fingerprint bytes))).length = 1 := by
  have hstep : importPatch db tag bytes m1 =
      (mkRecord tag bytes m1, true, db ++ [mkRecord tag bytes m1]) := by
    simp [importPatch, habs]
  have hfound : lookupPatch (db ++ [mkRecord tag bytes m1]) tag (fingerprint bytes) =
      some (mkRecord tag bytes m1) := by
    rw [lookupPatch_append_absent db tag (fingerprint bytes) _ habs,
      if_pos (keyMatches_mkRecord tag bytes m1)]
  have hstep2 : importPatch (db ++ [mkRecord tag bytes m1]) tag bytes m2 =
      (mkRecord tag bytes m1, false, db ++ [mkRecord tag bytes m1]) := by
    simp [importPatch, hfound]
  have hfilter : (db ++ [mkRecord tag bytes m1]).filter (keyMatches tag (fingerprint bytes)) =
      [mkRecord tag bytes m1] := by
    rw [List.filter_append]
    have hnil : db.filter (keyMatches tag (fingerprint bytes)) = [] :=
      List.filter_eq_nil_iff.mpr (List.find?_eq_none.mp habs)
    rw [hnil]
    simp [keyMatches_mkRecord tag bytes m1]
  rw [hstep]
  simp [hstep2, hfilter]
  rfl

theorem c1_witness :
    (importPatch [] "Rev2" [10, 20, 30] ⟨"device", "Init", 0⟩).2.1 = true ∧
      (importPatch (importPatch [] "Rev2" [10, 20, 30] ⟨"device", "Init", 0⟩).2.2 "Rev2"
        [10, 20, 30] ⟨"file", "Init2", 1⟩).2.1 = false ∧
      (importPatch (importPatch [] "Rev2" [10, 20, 30] ⟨"device", "Init", 0⟩).2.2 "Rev2"
        [10, 20, 30] ⟨"file", "Init2", 1⟩).2.2 =
        (importPatch [] "Rev2" [10, 20, 30] ⟨"device", "Init", 0⟩).2.2 ∧
      (importPatch (importPatch [] "Rev2" [10, 20, 30] ⟨"device", "Init", 0⟩).2.2 "Rev2"
        [10, 20, 30] ⟨"file", "Init2", 1⟩).1 =
        (importPatch [] "Rev2" [10, 20, 30] ⟨"device", "Init", 0⟩).1 ∧
      (importPatch (importPatch [] "Rev2" [10, 20, 30] ⟨"device", "Init", 0⟩).2.2 "Rev2"
        [10, 20, 30] ⟨"file", "Init2", 1⟩).1.bytes = [10, 20, 30] ∧
      ((importPatch (importPatch [] "Rev2" [10, 20, 30] ⟨"device", "Init", 0⟩).2.2 "Rev2"
        [10, 20, 30] ⟨"file", "Init2", 1⟩).2.2.filter
          (keyMatches "Rev2" (fingerprint [10, 20, 30]))).length = 1 :=
  c1_reimport_dedup [] "Rev2" [10, 20, 30] ⟨"device", "Init", 0⟩ ⟨"file", "Init2", 1⟩ rfl


/-- C4: importing identical bytes once under each of two distinct synth model
tags (starting from a database holding neither key) inserts both times and
creates two distinct stored records, one per (synth model tag, fingerprint)
key — the uniqueness key includes the model tag, not the fingerprint alone. -/
theorem c4_distinct_tags (db : List PatchRecord) (t1 t2 : String) (bytes : List Nat)
    (m1 m2 : SourceMeta) (hne : t1 ≠ t2)
    (h1 : lookupPatch db t1 (fingerprint bytes) = none)
    (h2 : lookupPatch db t2 (fingerprint bytes) = none) :
    (importPatch db t1 bytes m1).2.1 = true ∧
      (importPatch (importPatch db t1 bytes m1).2.2 t2 bytes m2).2.1 = true ∧
      lookupPatch (importPatch (importPatch db t1 bytes m1).2.2 t2 bytes m2).2.2 t1
        (fingerprint bytes) = some (mkRecord t1 bytes m1) ∧
      lookupPatch (importPatch (importPatch db t1 bytes m1).2.2 t2 bytes m2).2.2 t2
        (fingerprint bytes) = some (mkRecord t2 bytes m2) ∧
      mkRecord t1 bytes m1 ≠ mkRecord t2 bytes m2 := by
  have hkey12 : keyMatches t2 (fingerprint bytes) (mkRecord t1 bytes m1) = false := by
    simp [keyMatches, mkRecord]
    intro h
    exact absurd h hne
  have hstep : importPatch db t1 bytes m1 =
      (mkRecord t1 bytes m1, true, db ++ [mkRecord t1 bytes m1]) := by
    simp [importPatch, h1]
  have hlook2 : lookupPatch (db ++ [mkRecord t1 bytes m1]) t2 (fingerprint bytes) = none := by
    rw [lookupPatch_append_absent db t2 (fingerprint bytes) _ h2, if_neg]
    simp [hkey12]
  have hstep2 : importPatch (db ++ [mkRecord t1 bytes m1]) t2 bytes m2 =
      (mkRecord t2 bytes m2, true, (db ++ [mkRecord t1 bytes m1]) ++ [mkRecord t2 bytes m2]) := by
    simp [importPatch, hlook2]
  have hlookA : lookupPatch (db ++ [mkRecord t1 bytes m1, mkRecord t2 bytes m2]) t1
      (fingerprint bytes) = some (mkRecord t1 bytes m1) := by
    unfold lookupPatch at *
    rw [List.find?_append, h1]
    simp [List.find?, keyMatches_mkRecord]
  have hlookB : lookupPatch (db ++ [mkRecord t1 bytes m1, mkRecord t2 bytes m2]) t2
      (fingerprint bytes) = some (mkRecord t2 bytes m2) := by
    unfold lookupPatch at *
    rw [List.find?_append, h2]
    simp [List.find?, keyMatches_mkRecord, hkey12]
  have hrec : mkRecord t1 bytes m1 ≠ mkRecord t2 bytes m2 :=
    fun h => hne (congrArg PatchRecord.synthTag h)
  rw [hstep]
  simp [hstep2, hlookA, hlookB, hrec]

theorem c4_witness :
    (importPatch [] "Rev2" [10, 20, 30] ⟨"device", "Init", 0⟩).2.1 = true ∧
      (importPatch (importPatch [] "Rev2" [10, 20, 30] ⟨"device", "Init", 0⟩).2.2 "OB6"
        [10, 20, 30] ⟨"device", "Init", 0⟩).2.1 = true ∧
      lookupPatch (importPatch (importPatch [] "Rev2" [10, 20, 30] ⟨"device", "Init", 0⟩).2.2
        "OB6" [10, 20, 30] ⟨"device", "Init", 0⟩).2.2 "Rev2" (fingerprint [10, 20, 30]) =
        some (mkRecord "Rev2" [10, 20, 30] ⟨"device", "Init", 0⟩) ∧
      lookupPatch (importPatch (importPatch [] "Rev2" [10, 20, 30] ⟨"device", "Init", 0⟩).2.2
        "OB6" [10, 20, 30] ⟨"device", "Init", 0⟩).2.2 "OB6" (fingerprint [10, 20, 30]) =
        some (mkRecord "OB6" [10, 20, 30] ⟨"device", "Init", 0⟩) ∧
      mkRecord "Rev2" [10, 20, 30] ⟨"device", "Init", 0⟩ ≠
        mkRecord "OB6" [10, 20, 30] ⟨"device", "Init", 0⟩ :=
  c4_distinct_tags [] "Rev2" "OB6" [10, 20, 30] ⟨"device", "Init", 0⟩ ⟨"device", "Init", 0⟩
    (by decide) rfl rfl

/-- C9: deletePatch is idempotent: deleting a (fingerprint, synthTag) key
that is absent from the database is a no-op rather than an error, and
applying deletePatch twice leaves the same database state as applying it
once. -/
theorem c9_delete_idempotent (db : List PatchRecord) (fp : Nat) (tag : String) :
    (lookupPatch db tag fp = none → deletePatch db fp tag = db) ∧
      deletePatch (deletePatch db fp tag) fp tag = deletePatch db fp tag := by
  constructor
  · intro h
    apply List.filter_eq_self.mpr
    intro r hr
    have hfalse := List.find?_eq_none.mp h r hr
    simp at hfalse
    simp [hfalse]
  · unfold deletePatch
    rw [List.filter_filter]
    simp

theorem c9_witness :
    deletePatch ([] : List PatchRecord) 5 "Rev2" = [] :=
  (c9_delete_idempotent [] 5 "Rev2").1 rfl

/-- C8: listPatches is deterministic and restartable: two invocations with
the same filter against the unchanged database return identical ordered
sequences, in the stable order on (display name, fingerprint). -/
theorem c8_list_deterministic (f : PatchFilter) (db l1 l2 : List PatchRecord)
    (h1 : l1 = listPatches f db) (h2 : l2 = listPatches f db) :
    l1 = l2 ∧ List.Sorted recLE l1 := by
  subst h1
  subst h2
  exact ⟨rfl, List.sorted_insertionSort recLE _⟩

theorem c8_witness :
    ([] : List PatchRecord) = [] ∧ List.Sorted recLE ([] : List PatchRecord) :=
  c8_list_deterministic ⟨none, none, none, false⟩ [] [] [] rfl rfl

end midikraft
